import Mathlib

/-!
# The pod-metadata relay plugin (`v2alpha1/plugins/podresources/nri-podresources.go`)

A shallow embedding of the plugin's handlers, and the properties of its
specification settled on that embedding.

Conventions of the embedding

* A Go `string` is a Lean `String`; `+` on strings is `++`. The strings of the
  handlers are fields of protobuf messages and the output of `json.Marshal`,
  which are UTF-8 text.
* A Go `map[string]string` value is a `GoMap`: `none` is the nil map, `some m`
  a map created with `make` or a literal. Reading a nil map finds nothing,
  assigning to an entry of a nil map panics.
* A Go slice value is a `GoSlice`: `none` is the nil slice.
* A Go `error` value is an `Option GoError`: `none` is the nil error.
* The handlers are methods on `*plugin`; they take the plugin and return the
  plugin after the call together with what the Go method returns. A handler
  that can panic returns `Except Panic _`.
* The request to the cluster (`p.clientset.CoreV1().Pods(ns).Get(...)`) and
  `json.Marshal` are external: the answer of the cluster to one request is an
  argument of `RunPodSandbox`, and `jsonMarshal` is a parameter.
-/

set_option linter.unusedVariables false

namespace PodResources

/-! ## Go values -/

/-- The string map of Go without its nil value: finitely many entries, at most one for a key. -/
abbrev StrMap : Type := AList (fun _ : String => String)

/-- A Go value of type `map[string]string`; `none` is the nil map. -/
abbrev GoMap : Type := Option StrMap

/-- A Go slice value; `none` is the nil slice. -/
abbrev GoSlice (α : Type) : Type := Option (List α)

/-- A Go `error` that is not nil, with the text its `Error()` method gives. -/
structure GoError where
  msg : String
  deriving DecidableEq, Repr

/-- The run-time panics the handlers of this file can raise. -/
inductive Panic where
  /-- The Go runtime error "assignment to entry in nil map" -/
  | assignmentToEntryInNilMap
  deriving DecidableEq, Repr

/-- The Go expression `v, ok := m[k]`: `some v` when found (`ok`), `none` when not;
a nil map has no entry. -/
def GoMap.get (m : GoMap) (k : String) : Option String :=
  match m with
  | none => none
  | some es => es.lookup k

/-- The Go statement `m[k] = v`: the map afterwards, or the panic of the nil map. -/
def GoMap.set (m : GoMap) (k v : String) : Except Panic GoMap :=
  match m with
  | none => .error .assignmentToEntryInNilMap
  | some es => .ok (some (es.insert k v))

/-! ## The types of package `api` the plugin uses -/

namespace api

/-- The fields of `api.PodSandbox` the plugin reads. -/
structure PodSandbox where
  Namespace : String
  Name : String
  deriving DecidableEq, Repr

/-- The field of `api.Container` the plugin reads and writes. -/
structure Container where
  Annotations : GoMap

/-- The field of `api.ContainerCreateAdjustment` the plugin sets; every other field
keeps its zero value. -/
structure ContainerCreateAdjustment where
  Annotations : GoMap

/-- Modelled from the spec: `api.ContainerAdjustment`, the "deferred per-container
adjustment" declared in package `api`; the plugin only returns nil slices of it. -/
structure ContainerAdjustment where
  ContainerID : String
  Annotations : GoMap

end api

/-! ## The subscription mask of package `stub` -/

namespace stub

/-- Modelled from the spec: the event categories of the subscription mask,
"pod-sandbox create/stop/remove, container create/post-create/start/post-start/
update/post-update/stop/remove, synchronize-on-attach, shutdown". -/
inductive Event where
  | RunPodSandbox
  | StopPodSandbox
  | RemovePodSandbox
  | CreateContainer
  | PostCreateContainer
  | StartContainer
  | PostStartContainer
  | UpdateContainer
  | PostUpdateContainer
  | StopContainer
  | RemoveContainer
  | Synchronize
  | Shutdown
  deriving DecidableEq, Repr

/-- The type `stub.SubscribeMask`, a bit mask. -/
abbrev SubscribeMask : Type := Nat

/-- Modelled from the spec: the constant of package `stub` for one event category, a
mask of one bit. Which bit stands for which category is declared in package `stub`
and is the parameter `bitOf`. -/
def maskOf (bitOf : Event → Nat) (e : Event) : SubscribeMask := 1 <<< bitOf e

/-- The constant `stub.RunPodSandbox`. -/
def RunPodSandbox (bitOf : Event → Nat) : SubscribeMask := maskOf bitOf .RunPodSandbox

/-- The constant `stub.CreateContainer`. -/
def CreateContainer (bitOf : Event → Nat) : SubscribeMask := maskOf bitOf .CreateContainer

/-- Whether a mask subscribes to an event category: the bit of the category is set. -/
def subscribes (bitOf : Event → Nat) (m : SubscribeMask) (e : Event) : Bool :=
  m.testBit (bitOf e)

/-- One assignment of bits to the event categories: bit 0, 1, 2, ... in the order of
the specification's list. -/
def declaredOrder : Event → Nat
  | .RunPodSandbox => 0
  | .StopPodSandbox => 1
  | .RemovePodSandbox => 2
  | .CreateContainer => 3
  | .PostCreateContainer => 4
  | .StartContainer => 5
  | .PostStartContainer => 6
  | .UpdateContainer => 7
  | .PostUpdateContainer => 8
  | .StopContainer => 9
  | .RemoveContainer => 10
  | .Synchronize => 11
  | .Shutdown => 12

end stub

/-! ## The plugin -/

/-- The plugin. Of the three fields of the Go struct, `podData` is the state: `main`
creates it as the empty map `map[string]string{}` and nothing assigns the field
afterwards, so it is never the nil map. `stub` and `clientset` are handles of the
host and of the cluster. -/
structure plugin where
  podData : StrMap

/-- The key of a pod in `podData`: the expression `pod.Namespace + "/" + pod.Name`
of `RunPodSandbox` and `CreateContainer`. -/
def podKey (pod : api.PodSandbox) : String :=
  pod.Namespace ++ "/" ++ pod.Name

/-- A pod whose namespace and name are both without the character `/`. The request
`p.clientset.CoreV1().Pods(pod.Namespace).Get(..., pod.Name, ...)` of
`RunPodSandbox` is refused by the cluster client, before anything is sent, for a
namespace or a name that is not one path segment, so only such a pod has a
successful fetch. -/
def slashFree (pod : api.PodSandbox) : Prop :=
  '/' ∉ pod.Namespace.data ∧ '/' ∉ pod.Name.data

/-- The plugin `main` creates: `podData: map[string]string{}`. -/
def newPlugin : plugin := { podData := ∅ }

/-- What `CreateContainer` hands back: the three values the Go method returns, and
the container after the call (the adjustment shares the container's annotation
map, so the assignment to the adjustment's map is an assignment to the
container's). -/
structure CreateContainerResult where
  adjust : Option api.ContainerCreateAdjustment
  updates : GoSlice api.ContainerAdjustment
  err : Option GoError
  container : api.Container

namespace plugin

/-- The method `Configure`: `return stub.RunPodSandbox | stub.CreateContainer, nil`. -/
def Configure (bitOf : stub.Event → Nat) (p : plugin) (nriCfg : String) :
    stub.SubscribeMask × Option GoError :=
  (stub.RunPodSandbox bitOf ||| stub.CreateContainer bitOf, none)

/-- The method `RunPodSandbox`. `got` is what the request to the cluster returned:
`.ok k8spod` when `err == nil`, `.error err` otherwise. The result is the plugin
after the call and the text written to standard output. -/
def RunPodSandbox {K8sPod : Type} (jsonMarshal : K8sPod → String × Option GoError)
    (p : plugin) (pod : api.PodSandbox) (got : Except GoError K8sPod) : plugin × String :=
  let out := "RunPodSandbox: pod=" ++ pod.Namespace ++ "/" ++ pod.Name ++ "\n"
  match got with
  | .ok k8spod =>
    let k8spodjson := (jsonMarshal k8spod).1
    ({ p with podData := p.podData.insert (pod.Namespace ++ "/" ++ pod.Name) k8spodjson },
      out ++ k8spodjson ++ "\n")
  | .error err =>
    (p, out ++ "get failed: " ++ err.msg ++ "\n")

/-- The method `CreateContainer`. -/
def CreateContainer (p : plugin) (pod : api.PodSandbox) (container : api.Container) :
    Except Panic CreateContainerResult :=
  match p.podData.lookup (pod.Namespace ++ "/" ++ pod.Name) with
  | some data =>
    match GoMap.set container.Annotations "poddata" data with
    | .error e => .error e
    | .ok annotations =>
      .ok { adjust := some { Annotations := annotations }, updates := none, err := none,
            container := { container with Annotations := annotations } }
  | none => .ok { adjust := none, updates := none, err := none, container := container }

/-- The method `Synchronize`: `return nil, nil`. -/
def Synchronize (p : plugin) (pods : GoSlice api.PodSandbox)
    (containers : GoSlice api.Container) :
    plugin × GoSlice api.ContainerAdjustment × Option GoError :=
  (p, none, none)

/-- The method `Shutdown`, with an empty body. -/
def Shutdown (p : plugin) : plugin := p

/-- The method `StopPodSandbox`, with an empty body. -/
def StopPodSandbox (p : plugin) (pod : api.PodSandbox) : plugin := p

/-- The method `RemovePodSandbox`, with an empty body. -/
def RemovePodSandbox (p : plugin) (pod : api.PodSandbox) : plugin := p

/-- The method `PostCreateContainer`, with an empty body. -/
def PostCreateContainer (p : plugin) (pod : api.PodSandbox) (container : api.Container) :
    plugin := p

/-- The method `StartContainer`, with an empty body. -/
def StartContainer (p : plugin) (pod : api.PodSandbox) (container : api.Container) :
    plugin := p

/-- The method `PostStartContainer`, with an empty body. -/
def PostStartContainer (p : plugin) (pod : api.PodSandbox) (container : api.Container) :
    plugin := p

/-- The method `UpdateContainer`: `return nil, nil`. -/
def UpdateContainer (p : plugin) (pod : api.PodSandbox) (container : api.Container) :
    plugin × GoSlice api.ContainerAdjustment × Option GoError :=
  (p, none, none)

/-- The method `PostUpdateContainer`, with an empty body. -/
def PostUpdateContainer (p : plugin) (pod : api.PodSandbox) (container : api.Container) :
    plugin := p

/-- The method `StopContainer`: `return nil, nil`. -/
def StopContainer (p : plugin) (pod : api.PodSandbox) (container : api.Container) :
    plugin × GoSlice api.ContainerAdjustment × Option GoError :=
  (p, none, none)

/-- The method `RemoveContainer`, with an empty body. -/
def RemoveContainer (p : plugin) (pod : api.PodSandbox) (container : api.Container) :
    plugin := p

end plugin

/-! ## Sequences of events -/

/-- One event the host delivers to the plugin, with the arguments of the handler;
for `RunPodSandbox` also the answer of the cluster to the request the handler
makes. -/
inductive HostEvent (K8sPod : Type) where
  | RunPodSandbox (pod : api.PodSandbox) (got : Except GoError K8sPod)
  | CreateContainer (pod : api.PodSandbox) (container : api.Container)
  | Synchronize (pods : GoSlice api.PodSandbox) (containers : GoSlice api.Container)
  | Shutdown
  | StopPodSandbox (pod : api.PodSandbox)
  | RemovePodSandbox (pod : api.PodSandbox)
  | PostCreateContainer (pod : api.PodSandbox) (container : api.Container)
  | StartContainer (pod : api.PodSandbox) (container : api.Container)
  | PostStartContainer (pod : api.PodSandbox) (container : api.Container)
  | UpdateContainer (pod : api.PodSandbox) (container : api.Container)
  | PostUpdateContainer (pod : api.PodSandbox) (container : api.Container)
  | StopContainer (pod : api.PodSandbox) (container : api.Container)
  | RemoveContainer (pod : api.PodSandbox) (container : api.Container)

/-- The plugin after the handler of one event has run; a panic of the handler ends
the process. `CreateContainer` does not assign to the plugin. -/
def deliver {K8sPod : Type} (jsonMarshal : K8sPod → String × Option GoError)
    (p : plugin) : HostEvent K8sPod → Except Panic plugin
  | .RunPodSandbox pod got => .ok (p.RunPodSandbox jsonMarshal pod got).1
  | .CreateContainer pod container =>
    match p.CreateContainer pod container with
    | .ok _ => .ok p
    | .error e => .error e
  | .Synchronize pods containers => .ok (p.Synchronize pods containers).1
  | .Shutdown => .ok p.Shutdown
  | .StopPodSandbox pod => .ok (p.StopPodSandbox pod)
  | .RemovePodSandbox pod => .ok (p.RemovePodSandbox pod)
  | .PostCreateContainer pod container => .ok (p.PostCreateContainer pod container)
  | .StartContainer pod container => .ok (p.StartContainer pod container)
  | .PostStartContainer pod container => .ok (p.PostStartContainer pod container)
  | .UpdateContainer pod container => .ok (p.UpdateContainer pod container).1
  | .PostUpdateContainer pod container => .ok (p.PostUpdateContainer pod container)
  | .StopContainer pod container => .ok (p.StopContainer pod container).1
  | .RemoveContainer pod container => .ok (p.RemoveContainer pod container)

/-- The plugin after a sequence of events, delivered one after the other. -/
def deliverAll {K8sPod : Type} (jsonMarshal : K8sPod → String × Option GoError)
    (p : plugin) : List (HostEvent K8sPod) → Except Panic plugin
  | [] => .ok p
  | e :: es =>
    match deliver jsonMarshal p e with
    | .ok q => deliverAll jsonMarshal q es
    | .error x => .error x

/-! ## Values for the concrete instances -/

namespace Sample

/-- A stand-in for `json.Marshal` on pod objects that are already text: the text
itself and a nil error. -/
def marshal (k8spod : String) : String × Option GoError := (k8spod, none)

/-- The pod `default/web-1`. -/
def web1 : api.PodSandbox := { Namespace := "default", Name := "web-1" }

/-- A container whose annotation map is empty and not nil. -/
def emptyAnnotations : api.Container := { Annotations := some ∅ }

/-- A container with two annotations, one of them `"poddata"`. -/
def annotated : api.Container :=
  { Annotations := some ((∅ : StrMap).insert "poddata" "old" |>.insert "app" "web") }

end Sample

/-! ## Lemmas on the handlers -/

theorem lookup_after_fetch {K8sPod : Type} (jsonMarshal : K8sPod → String × Option GoError)
    (p : plugin) (pod : api.PodSandbox) (k8spod : K8sPod) :
    (p.RunPodSandbox jsonMarshal pod (.ok k8spod)).1.podData.lookup
      (pod.Namespace ++ "/" ++ pod.Name) = some (jsonMarshal k8spod).1 := by
  simp [plugin.RunPodSandbox, AList.lookup_insert]

theorem createContainer_of_entry (p : plugin) (pod : api.PodSandbox) (A : StrMap)
    (data : String) (h : p.podData.lookup (pod.Namespace ++ "/" ++ pod.Name) = some data) :
    p.CreateContainer pod { Annotations := some A } =
      .ok { adjust := some { Annotations := some (A.insert "poddata" data) },
            updates := none, err := none,
            container := { Annotations := some (A.insert "poddata" data) } } := by
  simp [plugin.CreateContainer, h, GoMap.set]

theorem append_sep_inj {c : Char} :
    ∀ (l₁ l₂ r₁ r₂ : List Char), c ∉ l₁ → c ∉ l₂ →
      l₁ ++ c :: r₁ = l₂ ++ c :: r₂ → l₁ = l₂ ∧ r₁ = r₂
  | [], [], _, _, _, _, h => ⟨rfl, by simpa using h⟩
  | [], b :: l₂, _, _, _, h₂, h => by
    simp only [List.nil_append, List.cons_append, List.cons.injEq] at h
    exact absurd (h.1 ▸ List.mem_cons_self _ _) h₂
  | a :: l₁, [], _, _, h₁, _, h => by
    simp only [List.nil_append, List.cons_append, List.cons.injEq] at h
    exact absurd (h.1 ▸ List.mem_cons_self _ _) h₁
  | a :: l₁, b :: l₂, r₁, r₂, h₁, h₂, h => by
    simp only [List.cons_append, List.cons.injEq] at h
    have ih := append_sep_inj l₁ l₂ r₁ r₂ (fun m => h₁ (List.mem_cons_of_mem _ m))
      (fun m => h₂ (List.mem_cons_of_mem _ m)) h.2
    exact ⟨by rw [h.1, ih.1], ih.2⟩

theorem append_sep_inj_right {c : Char} (l₁ l₂ r₁ r₂ : List Char) (h₁ : c ∉ r₁)
    (h₂ : c ∉ r₂) (h : l₁ ++ c :: r₁ = l₂ ++ c :: r₂) : l₁ = l₂ ∧ r₁ = r₂ := by
  have hr := congrArg List.reverse h
  simp only [List.reverse_append, List.reverse_cons, List.append_assoc, List.singleton_append]
    at hr
  have := append_sep_inj r₁.reverse r₂.reverse l₁.reverse l₂.reverse
    (by simpa using h₁) (by simpa using h₂) hr
  exact ⟨List.reverse_injective this.2, List.reverse_injective this.1⟩

theorem podKey_data (pod : api.PodSandbox) :
    (podKey pod).data = pod.Namespace.data ++ '/' :: pod.Name.data := by
  simp [podKey]

theorem deliver_keeps_and_origin {K8sPod : Type}
    (jsonMarshal : K8sPod → String × Option GoError) (p q : plugin) (e : HostEvent K8sPod)
    (k : String) (h : deliver jsonMarshal p e = .ok q) :
    (k ∈ p.podData → k ∈ q.podData) ∧
    (k ∈ q.podData → k ∈ p.podData ∨
      ∃ pod k8spod, e = .RunPodSandbox pod (.ok k8spod) ∧ podKey pod = k) := by
  cases e with
  | RunPodSandbox pod got =>
    cases got with
    | ok k8spod =>
      simp only [deliver, plugin.RunPodSandbox, Except.ok.injEq] at h
      subst h
      simp only [AList.mem_insert]
      refine ⟨fun hk => Or.inr hk, fun hk => ?_⟩
      rcases hk with hk | hk
      · exact Or.inr ⟨pod, k8spod, rfl, hk.symm⟩
      · exact Or.inl hk
    | error err =>
      simp only [deliver, plugin.RunPodSandbox, Except.ok.injEq] at h
      subst h
      exact ⟨id, Or.inl⟩
  | CreateContainer pod container =>
    simp only [deliver] at h
    split at h
    · simp only [Except.ok.injEq] at h
      subst h
      exact ⟨id, Or.inl⟩
    · exact absurd h (by simp)
  | _ =>
    simp only [deliver, plugin.Synchronize, plugin.Shutdown, plugin.StopPodSandbox,
      plugin.RemovePodSandbox, plugin.PostCreateContainer, plugin.StartContainer,
      plugin.PostStartContainer, plugin.UpdateContainer, plugin.PostUpdateContainer,
      plugin.StopContainer, plugin.RemoveContainer, Except.ok.injEq] at h
    subst h
    exact ⟨id, Or.inl⟩

theorem deliverAll_keeps_and_origin {K8sPod : Type}
    (jsonMarshal : K8sPod → String × Option GoError) (k : String) :
    ∀ (es : List (HostEvent K8sPod)) (p q : plugin), deliverAll jsonMarshal p es = .ok q →
      (k ∈ p.podData → k ∈ q.podData) ∧
      (k ∈ q.podData → k ∈ p.podData ∨
        ∃ pod k8spod, HostEvent.RunPodSandbox pod (.ok k8spod) ∈ es ∧ podKey pod = k)
  | [], p, q, h => by
    simp only [deliverAll, Except.ok.injEq] at h
    subst h
    exact ⟨id, Or.inl⟩
  | e :: es, p, q, h => by
    simp only [deliverAll] at h
    split at h
    · rename_i m hm
      have h1 := deliver_keeps_and_origin jsonMarshal p m e k hm
      have h2 := deliverAll_keeps_and_origin jsonMarshal k es m q h
      refine ⟨fun hk => h2.1 (h1.1 hk), fun hk => ?_⟩
      rcases h2.2 hk with hk | ⟨pod, o, hmem, hkey⟩
      · rcases h1.2 hk with hk | ⟨pod, o, he, hkey⟩
        · exact Or.inl hk
        · exact Or.inr ⟨pod, o, he ▸ List.mem_cons_self _ _, hkey⟩
      · exact Or.inr ⟨pod, o, List.mem_cons_of_mem _ hmem, hkey⟩
    · exact absurd h (by simp)

theorem podKey_inj (pod₁ pod₂ : api.PodSandbox)
    (hs : slashFree pod₁ ∨ ('/' ∉ pod₁.Namespace.data ∧ '/' ∉ pod₂.Namespace.data) ∨
      ('/' ∉ pod₁.Name.data ∧ '/' ∉ pod₂.Name.data))
    (hk : podKey pod₁ = podKey pod₂) :
    pod₁.Namespace = pod₂.Namespace ∧ pod₁.Name = pod₂.Name := by
  have hd := congrArg String.data hk
  rw [podKey_data, podKey_data] at hd
  have key : pod₁.Namespace.data = pod₂.Namespace.data ∧ pod₁.Name.data = pod₂.Name.data := by
    rcases hs with ⟨h₁, h₂⟩ | ⟨h₁, h₂⟩ | ⟨h₁, h₂⟩
    · have := (List.append_cons_inj_of_not_mem h₁ h₂).mp hd
      exact ⟨this.1, this.2.2⟩
    · exact append_sep_inj _ _ _ _ h₁ h₂ hd
    · exact append_sep_inj_right _ _ _ _ h₁ h₂ hd
  exact ⟨String.ext key.1, String.ext key.2⟩

theorem deliver_entry_origin {K8sPod : Type}
    (jsonMarshal : K8sPod → String × Option GoError) (p q : plugin) (e : HostEvent K8sPod)
    (k v : String) (h : deliver jsonMarshal p e = .ok q)
    (hv : q.podData.lookup k = some v) :
    p.podData.lookup k = some v ∨
      ∃ pod k8spod, e = .RunPodSandbox pod (.ok k8spod) ∧ podKey pod = k ∧
        v = (jsonMarshal k8spod).1 := by
  cases e with
  | RunPodSandbox pod got =>
    cases got with
    | ok k8spod =>
      simp only [deliver, plugin.RunPodSandbox, Except.ok.injEq] at h
      subst h
      by_cases hk : k = pod.Namespace ++ "/" ++ pod.Name
      · subst hk
        simp only [AList.lookup_insert, Option.some.injEq] at hv
        exact Or.inr ⟨pod, k8spod, rfl, rfl, hv.symm⟩
      · simp only [AList.lookup_insert_ne hk] at hv
        exact Or.inl hv
    | error err =>
      simp only [deliver, plugin.RunPodSandbox, Except.ok.injEq] at h
      subst h
      exact Or.inl hv
  | CreateContainer pod container =>
    simp only [deliver] at h
    split at h
    · simp only [Except.ok.injEq] at h
      subst h
      exact Or.inl hv
    · exact absurd h (by simp)
  | _ =>
    simp only [deliver, plugin.Synchronize, plugin.Shutdown, plugin.StopPodSandbox,
      plugin.RemovePodSandbox, plugin.PostCreateContainer, plugin.StartContainer,
      plugin.PostStartContainer, plugin.UpdateContainer, plugin.PostUpdateContainer,
      plugin.StopContainer, plugin.RemoveContainer, Except.ok.injEq] at h
    subst h
    exact Or.inl hv

theorem deliverAll_entry_origin {K8sPod : Type}
    (jsonMarshal : K8sPod → String × Option GoError) (k v : String) :
    ∀ (es : List (HostEvent K8sPod)) (p q : plugin), deliverAll jsonMarshal p es = .ok q →
      q.podData.lookup k = some v →
      p.podData.lookup k = some v ∨
        ∃ pod k8spod, HostEvent.RunPodSandbox pod (.ok k8spod) ∈ es ∧ podKey pod = k ∧
          v = (jsonMarshal k8spod).1
  | [], p, q, h, hv => by
    simp only [deliverAll, Except.ok.injEq] at h
    subst h
    exact Or.inl hv
  | e :: es, p, q, h, hv => by
    simp only [deliverAll] at h
    split at h
    · rename_i m hm
      rcases deliverAll_entry_origin jsonMarshal k v es m q h hv with
        hv | ⟨pod, o, hmem, hkey, hval⟩
      · rcases deliver_entry_origin jsonMarshal p m e k v hm hv with
          hv | ⟨pod, o, he, hkey, hval⟩
        · exact Or.inl hv
        · exact Or.inr ⟨pod, o, he ▸ List.mem_cons_self _ _, hkey, hval⟩
      · exact Or.inr ⟨pod, o, List.mem_cons_of_mem _ hmem, hkey, hval⟩
    · exact absurd h (by simp)

/-! ## The properties -/

/-- C1: after `RunPodSandbox` for a pod has run with a successful fetch, from any
cache, `CreateContainer` for a container of that pod whose annotation map is not
nil returns a create adjustment that is not nil, and the annotation `"poddata"` of
the adjustment is the serialized form of the fetched pod object. -/
theorem create_after_fetch_has_poddata {K8sPod : Type}
    (jsonMarshal : K8sPod → String × Option GoError) (p : plugin) (pod : api.PodSandbox)
    (k8spod : K8sPod) (container : api.Container) (A : StrMap)
    (hA : container.Annotations = some A) :
    ∃ r adj, (p.RunPodSandbox jsonMarshal pod (.ok k8spod)).1.CreateContainer pod container
        = .ok r ∧ r.adjust = some adj ∧
      adj.Annotations.get "poddata" = some (jsonMarshal k8spod).1 := by
  obtain ⟨anns⟩ := container
  simp only at hA
  subst hA
  refine ⟨_, _, createContainer_of_entry _ pod A _ (lookup_after_fetch jsonMarshal p pod k8spod),
    rfl, ?_⟩
  simp [GoMap.get, AList.lookup_insert]

/-- C1 at the pod `default/web-1`, the fetched object `B` and the empty cache. -/
theorem create_after_fetch_has_poddata_witness :
    Sample.emptyAnnotations.Annotations = some ∅ ∧
    ∃ r adj, (newPlugin.RunPodSandbox Sample.marshal Sample.web1 (.ok "B")).1.CreateContainer
        Sample.web1 Sample.emptyAnnotations = .ok r ∧ r.adjust = some adj ∧
      adj.Annotations.get "poddata" = some (Sample.marshal "B").1 :=
  ⟨rfl, create_after_fetch_has_poddata Sample.marshal newPlugin Sample.web1 "B"
    Sample.emptyAnnotations ∅ rfl⟩

/-- C2: when the cache has no entry under the key of the pod, `CreateContainer`
returns a nil create adjustment, a nil slice of deferred adjustments and a nil
error, and the container, its annotation map included, is as it was. -/
theorem create_without_entry_is_silent (p : plugin) (pod : api.PodSandbox)
    (container : api.Container) (h : p.podData.lookup (podKey pod) = none) :
    p.CreateContainer pod container =
      .ok { adjust := none, updates := none, err := none, container := container } := by
  unfold podKey at h
  simp [plugin.CreateContainer, h]

/-- C2 at the empty cache and a container with annotations. -/
theorem create_without_entry_is_silent_witness :
    newPlugin.podData.lookup (podKey Sample.web1) = none ∧
    newPlugin.CreateContainer Sample.web1 Sample.annotated =
      .ok { adjust := none, updates := none, err := none, container := Sample.annotated } :=
  ⟨rfl, create_without_entry_is_silent newPlugin Sample.web1 Sample.annotated rfl⟩

/-- The cache after two fetches: after `RunPodSandbox` for a pod has succeeded with a
first object and then with a second, the cache has exactly one entry under the key
of the pod, the serialized second object; the cache is the one the second fetch alone would have
left, so nothing of the first object remains; and `CreateContainer` for the pod, for
every annotation map `A` that is not nil, returns an adjustment with `"poddata"` set
to the serialized second object, as does every call of it that returns. -/
theorem second_fetch_overwrites {K8sPod : Type}
    (jsonMarshal : K8sPod → String × Option GoError) (p : plugin) (pod : api.PodSandbox)
    (B1 B2 : K8sPod) (A : StrMap) :
    ((p.RunPodSandbox jsonMarshal pod (.ok B1)).1.RunPodSandbox jsonMarshal pod
        (.ok B2)).1.podData.lookup (podKey pod) = some (jsonMarshal B2).1 ∧
    ((p.RunPodSandbox jsonMarshal pod (.ok B1)).1.RunPodSandbox jsonMarshal pod
        (.ok B2)).1.podData.keys.count (podKey pod) = 1 ∧
    (∀ v : String, (⟨podKey pod, v⟩ : Sigma fun _ : String => String) ∈
        ((p.RunPodSandbox jsonMarshal pod (.ok B1)).1.RunPodSandbox jsonMarshal pod
          (.ok B2)).1.podData.entries → v = (jsonMarshal B2).1) ∧
    ((p.RunPodSandbox jsonMarshal pod (.ok B1)).1.RunPodSandbox jsonMarshal pod (.ok B2)).1
      = (p.RunPodSandbox jsonMarshal pod (.ok B2)).1 ∧
    (∃ r adj, ((p.RunPodSandbox jsonMarshal pod (.ok B1)).1.RunPodSandbox jsonMarshal pod
        (.ok B2)).1.CreateContainer pod { Annotations := some A } = .ok r ∧
      r.adjust = some adj ∧ adj.Annotations.get "poddata" = some (jsonMarshal B2).1) ∧
    (∀ container r, ((p.RunPodSandbox jsonMarshal pod (.ok B1)).1.RunPodSandbox jsonMarshal pod
        (.ok B2)).1.CreateContainer pod container = .ok r →
      ∃ adj, r.adjust = some adj ∧
        adj.Annotations.get "poddata" = some (jsonMarshal B2).1) := by
  have hl := lookup_after_fetch jsonMarshal (p.RunPodSandbox jsonMarshal pod (.ok B1)).1 pod B2
  refine ⟨hl, ?_, ?_, ?_, ?_, ?_⟩
  · apply List.count_eq_one_of_mem (AList.keys_nodup _)
    rw [← AList.mem_keys, ← AList.lookup_isSome]
    unfold podKey
    rw [hl]
    rfl
  · intro v hv
    have hv2 := AList.mem_lookup_iff.mpr hv
    unfold podKey at hv2
    rw [hl] at hv2
    exact (Option.mem_some_iff.mp hv2).symm
  · simp [plugin.RunPodSandbox, AList.insert_insert]
  · refine ⟨_, _, createContainer_of_entry _ pod A _ hl, rfl, ?_⟩
    simp [GoMap.get, AList.lookup_insert]
  · rintro ⟨anns⟩ r hr
    cases anns with
    | none => simp [plugin.CreateContainer, hl, GoMap.set] at hr
    | some M =>
      rw [createContainer_of_entry _ pod M _ hl] at hr
      cases hr
      exact ⟨_, rfl, by simp [GoMap.get, AList.lookup_insert]⟩

/-- C3: after `RunPodSandbox` for `default/web-1` has succeeded with `B1` and then with
`B2`, the cache has exactly one entry under `default/web-1`, which is `B2`, and it
is the cache the second fetch alone leaves; `CreateContainer` for a container of
the pod whose annotation map is nil then sets nothing: the assignment
`adj.Annotations["poddata"] = data` panics with "assignment to entry in nil map".
For the empty map that is not nil the adjustment has `"poddata"` with value `B2`. -/
theorem create_after_second_fetch_panics_on_nil_annotations :
    ((newPlugin.RunPodSandbox Sample.marshal Sample.web1 (.ok "B1")).1.RunPodSandbox
      Sample.marshal Sample.web1 (.ok "B2")).1.podData.lookup "default/web-1" = some "B2" ∧
    ((newPlugin.RunPodSandbox Sample.marshal Sample.web1 (.ok "B1")).1.RunPodSandbox
      Sample.marshal Sample.web1 (.ok "B2")).1.podData.keys = ["default/web-1"] ∧
    ((newPlugin.RunPodSandbox Sample.marshal Sample.web1 (.ok "B1")).1.RunPodSandbox
      Sample.marshal Sample.web1 (.ok "B2")).1.podData =
        (newPlugin.RunPodSandbox Sample.marshal Sample.web1 (.ok "B2")).1.podData ∧
    ((newPlugin.RunPodSandbox Sample.marshal Sample.web1 (.ok "B1")).1.RunPodSandbox
      Sample.marshal Sample.web1 (.ok "B2")).1.CreateContainer Sample.web1
        { Annotations := none } = .error .assignmentToEntryInNilMap ∧
    ((newPlugin.RunPodSandbox Sample.marshal Sample.web1 (.ok "B1")).1.RunPodSandbox
      Sample.marshal Sample.web1 (.ok "B2")).1.CreateContainer Sample.web1
        { Annotations := some ∅ } =
      .ok { adjust := some { Annotations := some ((∅ : StrMap).insert "poddata" "B2") },
            updates := none, err := none,
            container := { Annotations := some ((∅ : StrMap).insert "poddata" "B2") } } :=
  ⟨rfl, rfl, rfl, rfl, rfl⟩

/-- C4: when the fetch inside `RunPodSandbox` fails, the plugin after the call is the
plugin before it, so every key of the cache has the entry it had or none as
before; the handler hands back nothing but the plugin and its output, which is
the line of the event and the line of the failure. -/
theorem failed_fetch_keeps_cache {K8sPod : Type}
    (jsonMarshal : K8sPod → String × Option GoError) (p : plugin) (pod : api.PodSandbox)
    (err : GoError) :
    (p.RunPodSandbox jsonMarshal pod (.error err)).1 = p ∧
    (∀ k, (p.RunPodSandbox jsonMarshal pod (.error err)).1.podData.lookup k
      = p.podData.lookup k) ∧
    (p.RunPodSandbox jsonMarshal pod (.error err)).2 =
      "RunPodSandbox: pod=" ++ pod.Namespace ++ "/" ++ pod.Name ++ "\n" ++
        "get failed: " ++ err.msg ++ "\n" :=
  ⟨rfl, fun _ => rfl, rfl⟩

/-- C5: for a pod with the cache entry `B` and a container with the annotation map
`A`, `CreateContainer` returns an adjustment whose annotations, and the
container's after the call, are `A` with `"poddata"` set to `B`: `"poddata"` maps to
`B`, every other key has the value it has in `A` or none as in `A`, and the keys
are `"poddata"` and those of `A`. -/
theorem create_merges_annotations (p : plugin) (pod : api.PodSandbox) (A : StrMap)
    (B : String) (h : p.podData.lookup (podKey pod) = some B) :
    ∃ M : StrMap, p.CreateContainer pod { Annotations := some A } =
        .ok { adjust := some { Annotations := some M }, updates := none, err := none,
              container := { Annotations := some M } } ∧
      M = A.insert "poddata" B ∧
      (∀ k, M.lookup k = if k = "poddata" then some B else A.lookup k) ∧
      (∀ k, k ∈ M ↔ k = "poddata" ∨ k ∈ A) := by
  refine ⟨A.insert "poddata" B, createContainer_of_entry p pod A B h, rfl, ?_, ?_⟩
  · intro k
    by_cases hk : k = "poddata"
    · subst hk
      simp [AList.lookup_insert]
    · simp [hk, AList.lookup_insert_ne hk]
  · intro k
    exact AList.mem_insert A

/-- C5 at a cache with the entry `B` for `default/web-1` and a container annotated
with `"poddata"` and `"app"`. -/
theorem create_merges_annotations_witness :
    (newPlugin.RunPodSandbox Sample.marshal Sample.web1 (.ok "B")).1.podData.lookup
      (podKey Sample.web1) = some "B" ∧
    ∃ M : StrMap, (newPlugin.RunPodSandbox Sample.marshal Sample.web1
        (.ok "B")).1.CreateContainer Sample.web1
          { Annotations := some ((∅ : StrMap).insert "poddata" "old" |>.insert "app" "web") } =
        .ok { adjust := some { Annotations := some M }, updates := none, err := none,
              container := { Annotations := some M } } ∧
      M = ((∅ : StrMap).insert "poddata" "old" |>.insert "app" "web").insert "poddata" "B" ∧
      (∀ k, M.lookup k = if k = "poddata" then some "B"
        else ((∅ : StrMap).insert "poddata" "old" |>.insert "app" "web").lookup k) ∧
      (∀ k, k ∈ M ↔
        k = "poddata" ∨ k ∈ ((∅ : StrMap).insert "poddata" "old" |>.insert "app" "web")) :=
  ⟨by decide, create_merges_annotations _ Sample.web1 _ "B" (by decide)⟩

/-- C6: with the blob `B` cached under `default/web-1`, `CreateContainer` for a
container of that pod whose annotation map is nil does not complete: the
assignment `adj.Annotations["poddata"] = data` panics with "assignment to entry in
nil map". With the empty map that is not nil the adjustment has the one annotation
`"poddata"` with value `B`. -/
theorem create_with_nil_annotations_panics :
    (newPlugin.RunPodSandbox Sample.marshal Sample.web1 (.ok "B")).1.podData.lookup
      "default/web-1" = some "B" ∧
    (newPlugin.RunPodSandbox Sample.marshal Sample.web1 (.ok "B")).1.CreateContainer
      Sample.web1 { Annotations := none } = .error .assignmentToEntryInNilMap ∧
    (newPlugin.RunPodSandbox Sample.marshal Sample.web1 (.ok "B")).1.CreateContainer
      Sample.web1 { Annotations := some ∅ } =
        .ok { adjust := some { Annotations := some ((∅ : StrMap).insert "poddata" "B") },
              updates := none, err := none,
              container := { Annotations := some ((∅ : StrMap).insert "poddata" "B") } } :=
  ⟨rfl, rfl, rfl⟩

/-- C7, as stated, fails: the pod identities with namespace `a/b`, name `c` and with
namespace `a`, name `b/c` are two and have the same key `a/b/c`. -/
theorem podKey_collision :
    podKey { Namespace := "a/b", Name := "c" } = podKey { Namespace := "a", Name := "b/c" } ∧
    ¬ ((({ Namespace := "a/b", Name := "c" } : api.PodSandbox).Namespace =
          ({ Namespace := "a", Name := "b/c" } : api.PodSandbox).Namespace) ∧
       (({ Namespace := "a/b", Name := "c" } : api.PodSandbox).Name =
          ({ Namespace := "a", Name := "b/c" } : api.PodSandbox).Name)) :=
  ⟨by decide, by decide⟩

/-- C7, amended: equal keys `namespace + "/" + name` mean equal namespaces and equal
names when one of the two pods has no `/` in its namespace and none in its name,
or the two namespaces have none, or the two names have none. And two distinct
pods never share a cache entry: after any events delivered to the plugin `main`
creates, the fetch having succeeded only for pods whose namespace and name are
without `/` (the cluster client refuses the others), the entry a pod finds under
its key is the serialized object of a successful fetch for that very pod. -/
theorem podKey_identifies_fetched_pod {K8sPod : Type}
    (jsonMarshal : K8sPod → String × Option GoError) (es : List (HostEvent K8sPod))
    (p : plugin) (pod₁ pod₂ : api.PodSandbox)
    (hrun : deliverAll jsonMarshal newPlugin es = .ok p)
    (hclient : ∀ pod k8spod, HostEvent.RunPodSandbox pod (.ok k8spod) ∈ es → slashFree pod) :
    ((slashFree pod₁ ∨ ('/' ∉ pod₁.Namespace.data ∧ '/' ∉ pod₂.Namespace.data) ∨
        ('/' ∉ pod₁.Name.data ∧ '/' ∉ pod₂.Name.data)) →
      podKey pod₁ = podKey pod₂ →
      pod₁.Namespace = pod₂.Namespace ∧ pod₁.Name = pod₂.Name) ∧
    (∀ v, p.podData.lookup (podKey pod₂) = some v →
      ∃ k8spod, HostEvent.RunPodSandbox pod₂ (.ok k8spod) ∈ es ∧ v = (jsonMarshal k8spod).1) := by
  refine ⟨fun hs hk => podKey_inj pod₁ pod₂ hs hk, fun v hv => ?_⟩
  rcases deliverAll_entry_origin jsonMarshal (podKey pod₂) v es newPlugin p hrun hv with
    hv | ⟨pod, o, hm, hkey, hval⟩
  · exact absurd hv (by simp [newPlugin, AList.lookup_empty])
  · have hp := podKey_inj pod pod₂ (Or.inl (hclient pod o hm)) hkey
    have : pod = pod₂ := by
      cases pod
      cases pod₂
      simp only [api.PodSandbox.mk.injEq]
      exact hp
    exact ⟨o, this ▸ hm, hval⟩

/-- C7, amended, at a successful fetch of `B` for `default/web-1` followed by a
container creation, and the pod `default/web-1` taken twice. -/
theorem podKey_identifies_fetched_pod_witness :
    deliverAll Sample.marshal newPlugin
        [.RunPodSandbox Sample.web1 (.ok "B"),
         .CreateContainer Sample.web1 Sample.emptyAnnotations] =
      .ok (newPlugin.RunPodSandbox Sample.marshal Sample.web1 (.ok "B")).1 ∧
    (∀ pod k8spod, HostEvent.RunPodSandbox pod (.ok k8spod) ∈
        [HostEvent.RunPodSandbox Sample.web1 (.ok "B"),
         .CreateContainer Sample.web1 Sample.emptyAnnotations] → slashFree pod) ∧
    ((slashFree Sample.web1 ∨
        ('/' ∉ Sample.web1.Namespace.data ∧ '/' ∉ Sample.web1.Namespace.data) ∨
        ('/' ∉ Sample.web1.Name.data ∧ '/' ∉ Sample.web1.Name.data)) →
      podKey Sample.web1 = podKey Sample.web1 →
      Sample.web1.Namespace = Sample.web1.Namespace ∧ Sample.web1.Name = Sample.web1.Name) ∧
    (∀ v, (newPlugin.RunPodSandbox Sample.marshal Sample.web1 (.ok "B")).1.podData.lookup
        (podKey Sample.web1) = some v →
      ∃ k8spod, HostEvent.RunPodSandbox Sample.web1 (.ok k8spod) ∈
          [HostEvent.RunPodSandbox Sample.web1 (.ok "B"),
           .CreateContainer Sample.web1 Sample.emptyAnnotations] ∧
        v = (Sample.marshal k8spod).1) :=
  have hc : ∀ pod k8spod, HostEvent.RunPodSandbox pod (.ok k8spod) ∈
      [HostEvent.RunPodSandbox Sample.web1 (.ok "B"),
       .CreateContainer Sample.web1 Sample.emptyAnnotations] → slashFree pod := by
    intro pod k8spod h
    simp only [List.mem_cons, HostEvent.RunPodSandbox.injEq, Except.ok.injEq,
      reduceCtorEq, List.not_mem_nil, or_false] at h
    rw [h.1]
    exact ⟨by decide, by decide⟩
  ⟨rfl, hc, podKey_identifies_fetched_pod Sample.marshal _ _ Sample.web1 Sample.web1 rfl hc⟩

/-- C8: for every configuration string, and whichever distinct bits package `stub`
gives the event categories, `Configure` returns a nil error and a mask that
subscribes to `RunPodSandbox` and `CreateContainer` and to no other category; the
mask has no bit besides the bits of these two. -/
theorem configure_subscribes_to_two_events (bitOf : stub.Event → Nat)
    (hbits : Function.Injective bitOf) (p : plugin) (nriCfg : String) :
    (p.Configure bitOf nriCfg).2 = none ∧
    (∀ e, stub.subscribes bitOf (p.Configure bitOf nriCfg).1 e = true ↔
      e = .RunPodSandbox ∨ e = .CreateContainer) ∧
    (∀ i, (p.Configure bitOf nriCfg).1.testBit i = true ↔
      i = bitOf .RunPodSandbox ∨ i = bitOf .CreateContainer) := by
  have hbit : ∀ i, (p.Configure bitOf nriCfg).1.testBit i = true ↔
      i = bitOf .RunPodSandbox ∨ i = bitOf .CreateContainer := by
    intro i
    simp only [plugin.Configure, stub.RunPodSandbox, stub.CreateContainer, stub.maskOf,
      Nat.one_shiftLeft, Nat.testBit_or, Nat.testBit_two_pow, Bool.or_eq_true,
      decide_eq_true_eq]
    constructor <;> (intro h; rcases h with h | h) <;> simp [h]
  refine ⟨rfl, fun e => ?_, hbit⟩
  unfold stub.subscribes
  rw [hbit]
  constructor
  · rintro (h | h)
    · exact Or.inl (hbits h)
    · exact Or.inr (hbits h)
  · rintro (h | h) <;> simp [h]

/-- C8 at the bits 0 to 12 in the order of the specification's list, and the
configuration string `cfg`. -/
theorem configure_subscribes_to_two_events_witness :
    Function.Injective stub.declaredOrder ∧
    (newPlugin.Configure stub.declaredOrder "cfg").2 = none ∧
    (∀ e, stub.subscribes stub.declaredOrder (newPlugin.Configure stub.declaredOrder "cfg").1 e
      = true ↔ e = .RunPodSandbox ∨ e = .CreateContainer) ∧
    (∀ i, (newPlugin.Configure stub.declaredOrder "cfg").1.testBit i = true ↔
      i = stub.declaredOrder .RunPodSandbox ∨ i = stub.declaredOrder .CreateContainer) :=
  ⟨fun a b h => by cases a <;> cases b <;> first | rfl | exact absurd h (by decide),
    configure_subscribes_to_two_events stub.declaredOrder
      (fun a b h => by cases a <;> cases b <;> first | rfl | exact absurd h (by decide))
      newPlugin "cfg"⟩

/-- C9: each of the eleven other handlers leaves the plugin, and with it the cache,
as it was, for every input; `Synchronize`, `UpdateContainer` and `StopContainer`
return a nil slice of adjustments and a nil error. -/
theorem other_handlers_do_nothing (p : plugin) (pod : api.PodSandbox)
    (container : api.Container) (pods : GoSlice api.PodSandbox)
    (containers : GoSlice api.Container) :
    p.Synchronize pods containers = (p, none, none) ∧
    p.Shutdown = p ∧
    p.StopPodSandbox pod = p ∧
    p.RemovePodSandbox pod = p ∧
    p.PostCreateContainer pod container = p ∧
    p.StartContainer pod container = p ∧
    p.PostStartContainer pod container = p ∧
    p.UpdateContainer pod container = (p, none, none) ∧
    p.PostUpdateContainer pod container = p ∧
    p.StopContainer pod container = (p, none, none) ∧
    p.RemoveContainer pod container = p :=
  ⟨rfl, rfl, rfl, rfl, rfl, rfl, rfl, rfl, rfl, rfl, rfl⟩

/-- C10: let the plugin `main` creates, with the empty cache, receive the events
`es₁` and then the events `es₂`, every handler returning. A key with an entry in
the cache after `es₁` has an entry after `es₂`, and a key with an entry in the
cache at the end is the key of a pod for which one of the events was a
`RunPodSandbox` with a successful fetch. -/
theorem cache_entries_never_removed {K8sPod : Type}
    (jsonMarshal : K8sPod → String × Option GoError) (es₁ es₂ : List (HostEvent K8sPod))
    (p₁ p₂ : plugin) (k : String)
    (h₁ : deliverAll jsonMarshal newPlugin es₁ = .ok p₁)
    (h₂ : deliverAll jsonMarshal p₁ es₂ = .ok p₂) :
    (k ∈ p₁.podData → k ∈ p₂.podData) ∧
    (k ∈ p₂.podData → ∃ pod k8spod,
      HostEvent.RunPodSandbox pod (.ok k8spod) ∈ es₁ ++ es₂ ∧ podKey pod = k) := by
  have a := deliverAll_keeps_and_origin jsonMarshal k es₁ newPlugin p₁ h₁
  have b := deliverAll_keeps_and_origin jsonMarshal k es₂ p₁ p₂ h₂
  refine ⟨b.1, fun hk => ?_⟩
  rcases b.2 hk with hk | ⟨pod, o, hm, hkey⟩
  · rcases a.2 hk with hk | ⟨pod, o, hm, hkey⟩
    · exact absurd hk (AList.not_mem_empty k)
    · exact ⟨pod, o, List.mem_append_left _ hm, hkey⟩
  · exact ⟨pod, o, List.mem_append_right _ hm, hkey⟩

/-- C10 at a successful fetch for `default/web-1`, followed by the removal of the
pod, a container creation and a failed fetch for the same pod. -/
theorem cache_entries_never_removed_witness :
    deliverAll Sample.marshal newPlugin [.RunPodSandbox Sample.web1 (.ok "B")] =
      .ok (newPlugin.RunPodSandbox Sample.marshal Sample.web1 (.ok "B")).1 ∧
    deliverAll Sample.marshal (newPlugin.RunPodSandbox Sample.marshal Sample.web1 (.ok "B")).1
        [.RemovePodSandbox Sample.web1, .CreateContainer Sample.web1 Sample.emptyAnnotations,
         .RunPodSandbox Sample.web1 (.error { msg := "not found" })] =
      .ok (newPlugin.RunPodSandbox Sample.marshal Sample.web1 (.ok "B")).1 ∧
    ("default/web-1" ∈ (newPlugin.RunPodSandbox Sample.marshal Sample.web1 (.ok "B")).1.podData →
      "default/web-1" ∈
        (newPlugin.RunPodSandbox Sample.marshal Sample.web1 (.ok "B")).1.podData) ∧
    ("default/web-1" ∈ (newPlugin.RunPodSandbox Sample.marshal Sample.web1 (.ok "B")).1.podData →
      ∃ pod k8spod, HostEvent.RunPodSandbox pod (.ok k8spod) ∈
        [HostEvent.RunPodSandbox Sample.web1 (.ok "B")] ++
          [.RemovePodSandbox Sample.web1, .CreateContainer Sample.web1 Sample.emptyAnnotations,
           .RunPodSandbox Sample.web1 (.error { msg := "not found" })] ∧
        podKey pod = "default/web-1") :=
  ⟨rfl, rfl, cache_entries_never_removed Sample.marshal _ _ _ _ "default/web-1" rfl rfl⟩

end PodResources
